import Mathlib

/-!
Verification development for the fastapi-file-upload-benchmark repository.

Server side (src/server.py): five upload route handlers wrapped by a
`TimingMiddleware`.  Instrumentation effects (`time.perf_counter`,
`get_memory_usage_mb`, the two context variables) are embedded by passing the
values those calls return explicitly, in program order, via a `Trace` record.
Measured quantities are modelled as rationals (ideal real-valued clock and
memory readings).

Client side (src/client.py): the file-size matrix, per-trial upload encoding,
metrics merging, per-row error handling, and history persistence
(src/models.py pydantic models, embedded as plain structures with explicit
JSON encode/decode functions).
-/

namespace Upload

/-- Chunk size for file reading (0.25 MB), `CHUNK_SIZE` in src/server.py. -/
def CHUNK_SIZE : ℕ := 256 * 1024

/-- `ServerResponse` from src/models.py: one handler's self-reported result,
returned as the response body. `file_size_bytes` is a Python `int` (ℤ);
the float-valued fields are modelled as rationals. -/
structure ServerResponse where
  endpoint : String
  file_size_bytes : ℤ
  file_size_mb : ℚ
  handler_duration_seconds : ℚ
  memory_start_mb : ℚ
  memory_end_mb : ℚ
  memory_delta_mb : ℚ
  deriving Repr, DecidableEq

/-- The instrumentation readings available during one request, in program
order.  `t…` values are what successive `time.perf_counter()` calls return;
`m…` values are the process resident memory (in MiB, as reported by
`get_memory_usage_mb`) at the four distinguished instants of the request:
middleware entry (before any framework processing), handler entry (first
instruction of the handler body, after the framework parsed the body),
handler exit, and middleware exit.  The code samples memory only at
middleware entry, handler exit and middleware exit; `mHandlerEntry` is the
physical value at handler entry, which the code never reads. -/
structure Trace where
  tMwStart : ℚ
  tHandlerStart : ℚ
  tHandlerEnd : ℚ
  tMwEnd : ℚ
  mMwStart : ℚ
  mHandlerEntry : ℚ
  mHandlerExit : ℚ
  mMwEnd : ℚ
  deriving Repr, DecidableEq

/-- The two response headers stamped by `TimingMiddleware.dispatch`
(`X-Total-Duration`, `X-Total-Memory-Delta`), before `str()` serialization. -/
structure TimingHeaders where
  xTotalDuration : ℚ
  xTotalMemoryDelta : ℚ
  deriving Repr, DecidableEq

/-- `upload_sync_file` (src/server.py:60-84).  `file` is the request body the
framework fully buffered before invoking the handler.  `ctxStartMemory` is the
value read from the `request_start_memory` context variable (set by the
middleware); `t1`, `t2` are the handler's two `perf_counter` readings and
`memEnd` its one `get_memory_usage_mb` reading. -/
def upload_sync_file (ctxStartMemory t1 t2 memEnd : ℚ) (file : List ℕ) :
    ServerResponse :=
  let start_memory := ctxStartMemory
  let handler_start_time := t1
  let file_size := file.length
  let handler_end_time := t2
  let end_memory := memEnd
  let handler_duration := handler_end_time - handler_start_time
  { endpoint := "sync-file"
    file_size_bytes := (file_size : ℤ)
    file_size_mb := (file_size : ℚ) / 1024 / 1024
    handler_duration_seconds := handler_duration
    memory_start_mb := start_memory
    memory_end_mb := end_memory
    memory_delta_mb := end_memory - start_memory }

/-- `upload_async_file` (src/server.py:87-111): identical body to the sync
variant except for the endpoint name and call convention. -/
def upload_async_file (ctxStartMemory t1 t2 memEnd : ℚ) (file : List ℕ) :
    ServerResponse :=
  let start_memory := ctxStartMemory
  let handler_start_time := t1
  let file_size := file.length
  let handler_end_time := t2
  let end_memory := memEnd
  let handler_duration := handler_end_time - handler_start_time
  { endpoint := "async-file"
    file_size_bytes := (file_size : ℤ)
    file_size_mb := (file_size : ℚ) / 1024 / 1024
    handler_duration_seconds := handler_duration
    memory_start_mb := start_memory
    memory_end_mb := end_memory
    memory_delta_mb := end_memory - start_memory }

/-- The `while chunk := file.file.read(CHUNK_SIZE): file_size += len(chunk)`
loop of `upload_sync_uploadfile` / `upload_async_uploadfile`: read the
remaining bytes in chunks of at most `CHUNK_SIZE`, summing chunk lengths;
`read` returns an empty chunk exactly when the data is exhausted. -/
def readLoopSize : List ℕ → ℕ
  | [] => 0
  | b :: rest =>
    ((b :: rest).take CHUNK_SIZE).length + readLoopSize ((b :: rest).drop CHUNK_SIZE)
termination_by l => l.length
decreasing_by
  simp only [List.length_drop, List.length_cons]
  have : 0 < CHUNK_SIZE := by norm_num [CHUNK_SIZE]
  omega

/-- `upload_sync_uploadfile` (src/server.py:114-139): chunked sync read of the
spooled upload `data` via `file.file.read(CHUNK_SIZE)`. -/
def upload_sync_uploadfile (ctxStartMemory t1 t2 memEnd : ℚ) (data : List ℕ) :
    ServerResponse :=
  let start_memory := ctxStartMemory
  let handler_start_time := t1
  let file_size := readLoopSize data
  let handler_end_time := t2
  let end_memory := memEnd
  let handler_duration := handler_end_time - handler_start_time
  { endpoint := "sync-uploadfile"
    file_size_bytes := (file_size : ℤ)
    file_size_mb := (file_size : ℚ) / 1024 / 1024
    handler_duration_seconds := handler_duration
    memory_start_mb := start_memory
    memory_end_mb := end_memory
    memory_delta_mb := end_memory - start_memory }

/-- `upload_async_uploadfile` (src/server.py:142-167): same loop through
`await file.read(CHUNK_SIZE)`. -/
def upload_async_uploadfile (ctxStartMemory t1 t2 memEnd : ℚ) (data : List ℕ) :
    ServerResponse :=
  let start_memory := ctxStartMemory
  let handler_start_time := t1
  let file_size := readLoopSize data
  let handler_end_time := t2
  let end_memory := memEnd
  let handler_duration := handler_end_time - handler_start_time
  { endpoint := "async-uploadfile"
    file_size_bytes := (file_size : ℤ)
    file_size_mb := (file_size : ℚ) / 1024 / 1024
    handler_duration_seconds := handler_duration
    memory_start_mb := start_memory
    memory_end_mb := end_memory
    memory_delta_mb := end_memory - start_memory }

/-- `upload_async_stream` (src/server.py:170-195): consumes the chunks yielded
by `request.stream()` (`chunks`), summing `len(chunk)` per iteration. -/
def upload_async_stream (ctxStartMemory t1 t2 memEnd : ℚ)
    (chunks : List (List ℕ)) : ServerResponse :=
  let start_memory := ctxStartMemory
  let handler_start_time := t1
  let file_size := (chunks.map List.length).sum
  let handler_end_time := t2
  let end_memory := memEnd
  let handler_duration := handler_end_time - handler_start_time
  { endpoint := "async-stream"
    file_size_bytes := (file_size : ℤ)
    file_size_mb := (file_size : ℚ) / 1024 / 1024
    handler_duration_seconds := handler_duration
    memory_start_mb := start_memory
    memory_end_mb := end_memory
    memory_delta_mb := end_memory - start_memory }

/-- `TimingMiddleware.dispatch` (src/server.py:32-53) wrapped around a handler
whose `ServerResponse` is already a function of the context-variable memory
snapshot and the handler-local instrumentation readings.  The middleware takes
`start_time`/`start_memory` before any FastAPI processing, stores them in the
context variables, dispatches, then takes `end_time`/`end_memory` and stamps
the two headers. -/
def dispatch (handler : ℚ → ℚ → ℚ → ℚ → ServerResponse) (tr : Trace) :
    ServerResponse × TimingHeaders :=
  let start_time := tr.tMwStart
  let start_memory := tr.mMwStart
  let response := handler start_memory tr.tHandlerStart tr.tHandlerEnd tr.mHandlerExit
  let end_time := tr.tMwEnd
  let end_memory := tr.mMwEnd
  (response, { xTotalDuration := end_time - start_time
               xTotalMemoryDelta := end_memory - start_memory })

/-- The full `sync-file` route: middleware around `upload_sync_file`. -/
def route_sync_file (tr : Trace) (file : List ℕ) : ServerResponse × TimingHeaders :=
  dispatch (fun m t1 t2 me => upload_sync_file m t1 t2 me file) tr

/-- The full `async-file` route: middleware around `upload_async_file`. -/
def route_async_file (tr : Trace) (file : List ℕ) : ServerResponse × TimingHeaders :=
  dispatch (fun m t1 t2 me => upload_async_file m t1 t2 me file) tr

/-- The full `sync-uploadfile` route: middleware around `upload_sync_uploadfile`. -/
def route_sync_uploadfile (tr : Trace) (data : List ℕ) : ServerResponse × TimingHeaders :=
  dispatch (fun m t1 t2 me => upload_sync_uploadfile m t1 t2 me data) tr

/-- The full `async-uploadfile` route: middleware around `upload_async_uploadfile`. -/
def route_async_uploadfile (tr : Trace) (data : List ℕ) : ServerResponse × TimingHeaders :=
  dispatch (fun m t1 t2 me => upload_async_uploadfile m t1 t2 me data) tr

/-- The full `async-stream` route: middleware around `upload_async_stream`. -/
def route_async_stream (tr : Trace) (chunks : List (List ℕ)) :
    ServerResponse × TimingHeaders :=
  dispatch (fun m t1 t2 me => upload_async_stream m t1 t2 me chunks) tr

/-- The chunked read loop consumes exactly the length of the data. -/
theorem readLoopSize_eq_length (l : List ℕ) : readLoopSize l = l.length := by
  induction l using readLoopSize.induct with
  | case1 => simp [readLoopSize]
  | case2 b rest ih =>
    rw [readLoopSize]
    simp only [List.length_take, List.length_drop] at *
    omega

/-! ### Client side: src/client.py -/

/-- The label computation inside the `FILE_SIZES` loop (src/client.py:15-22):
pick the unit by magnitude thresholds at powers of 1024 and integer-divide. -/
def fileSizeLabel (size_bytes : ℕ) : String :=
  if size_bytes < 1024 then toString size_bytes ++ "B"
  else if size_bytes < 1024 * 1024 then toString (size_bytes / 1024) ++ "KB"
  else if size_bytes < 1024 * 1024 * 1024 then toString (size_bytes / (1024 * 1024)) ++ "MB"
  else toString (size_bytes / (1024 * 1024 * 1024)) ++ "GB"

/-- The `while size_bytes <= 1024 * 1024 * 1024` loop of src/client.py:12-24,
parametrised by the current `size_bytes` (which the loop doubles each step);
the positivity argument only justifies termination. -/
def buildSizes (size_bytes : ℕ) (h : 0 < size_bytes) : List (String × ℕ) :=
  if hle : size_bytes ≤ 1024 * 1024 * 1024 then
    (fileSizeLabel size_bytes, size_bytes) :: buildSizes (size_bytes * 2) (by omega)
  else []
termination_by 1024 * 1024 * 1024 + 1 - size_bytes
decreasing_by omega

/-- `FILE_SIZES` (src/client.py:12-24): the loop started at 1KB. -/
def FILE_SIZES : List (String × ℕ) := buildSizes 1024 (by norm_num)

/-- `ENDPOINTS` (src/client.py:27-33). -/
def ENDPOINTS : List String :=
  ["/upload/sync-file", "/upload/async-file", "/upload/sync-uploadfile",
   "/upload/async-uploadfile", "/upload/async-stream"]

/-- Does the second character list start with the first? -/
def charsStartWith : List Char → List Char → Bool
  | [], _ => true
  | _ :: _, [] => false
  | a :: as, b :: bs => a == b && charsStartWith as bs

/-- Substring containment on character lists (any position). -/
def containsSub (needle : List Char) : List Char → Bool
  | [] => charsStartWith needle []
  | c :: rest => charsStartWith needle (c :: rest) || containsSub needle rest

/-- Python's `needle in hay` substring test on strings. -/
def strIn (needle hay : String) : Bool := containsSub needle.data hay.data

/-- An open file object (`open(filepath, "rb")`): its name on disk and the
bytes a full `f.read()` would yield. -/
structure FileHandle where
  filename : String
  content : List ℕ
  deriving Repr, DecidableEq

/-- The wire encoding `upload_file` chooses (src/client.py:72-79). `raw` holds
the fully materialized bytes object produced by `f.read()` before the request
is issued; `multipart` holds the single form field name, `filepath.name`, the
content type, and the still-open handle, which the multipart encoder reads
during the request. -/
inductive RequestBody where
  | raw (content : List ℕ)
  | multipart (field : String) (filename : String) (contentType : String)
      (handle : FileHandle)
  deriving Repr, DecidableEq

/-- The encoding choice of `upload_file` (src/client.py:72-79): endpoints whose
path contains `"stream"` get the raw buffered body, all others a single-field
multipart form. -/
def buildRequestBody (endpoint : String) (f : FileHandle) : RequestBody :=
  if strIn "stream" endpoint then .raw f.content
  else .multipart "file" f.filename "application/octet-stream" f

/-- `cs` interpreted as a base-10 digit string (`'0'` = 48). -/
def digitsToNat (cs : List Char) : ℕ :=
  cs.foldl (fun acc c => acc * 10 + (c.toNat - 48)) 0

/-- Modelled from the spec: Python's builtin `float()` applied to header text
(the headers carry "string-encoded decimal numbers", §6).  Accepts an optional
sign, then digits with an optional fractional part, at least one digit in all;
any other text raises `ValueError`, modelled as `none`.  (The builtin's other
accepted syntaxes — exponents, `inf`/`nan`, underscores, surrounding
whitespace — never arise for these headers and are not modelled.) -/
def pyFloat (s : String) : Option ℚ :=
  let signAndRest : ℚ × List Char :=
    match s.data with
    | '-' :: r => (-1, r)
    | '+' :: r => (1, r)
    | r => (1, r)
  let intPart := signAndRest.2.takeWhile Char.isDigit
  let tail := signAndRest.2.dropWhile Char.isDigit
  match tail with
  | [] =>
    if intPart.isEmpty then none
    else some (signAndRest.1 * (digitsToNat intPart : ℚ))
  | '.' :: fracPart =>
    if fracPart.all Char.isDigit && !(intPart.isEmpty && fracPart.isEmpty) then
      some (signAndRest.1 *
        ((digitsToNat intPart : ℚ) + (digitsToNat fracPart : ℚ) / 10 ^ fracPart.length))
    else none
  | _ => none

/-- `float(response.headers.get(name, 0))` (src/client.py:94-95): a missing
header defaults to `0` (and `float(0)` is `0.0`); a present header's text goes
through `float`, raising (`none`) on malformed text. -/
def headerFloat (headers : List (String × String)) (name : String) : Option ℚ :=
  match headers.lookup name with
  | none => some 0
  | some v => pyFloat v

/-- What the HTTP exchange handed back to the client: status, the result of
pydantic validation of the response text (`none` when validation raises), and
the response headers. -/
structure HttpResponse where
  status_code : ℕ
  bodyDecoded : Option ServerResponse
  headers : List (String × String)
  deriving Repr, DecidableEq

/-- The value a trial's `await upload_file(...)` step produces, as seen by the
`try` block in `run_benchmark`: the error dict for a non-200 status, an
escaped exception (transport failure, timeout, body-validation or header
`float()` failure), or the merged result dict. -/
inductive UploadOutcome where
  | error (status : ℕ) (client_duration : ℚ)
  | exn
  | ok (server_response : ServerResponse) (client_duration : ℚ)
      (total_duration : ℚ) (total_memory_delta : ℚ)
  deriving Repr, DecidableEq

/-- The post-exchange half of `upload_file` (src/client.py:84-102): non-200
status returns the error dict; otherwise validate the body, parse the two
metadata headers with `float`, and return the merged dict. -/
def upload_file (resp : HttpResponse) (client_duration : ℚ) : UploadOutcome :=
  if resp.status_code ≠ 200 then .error resp.status_code client_duration
  else
    match resp.bodyDecoded with
    | none => .exn
    | some server_data =>
      match headerFloat resp.headers "X-Total-Duration",
            headerFloat resp.headers "X-Total-Memory-Delta" with
      | some total_duration, some total_memory_delta =>
        .ok server_data client_duration total_duration total_memory_delta
      | _, _ => .exn

/-- `EndpointMetrics` from src/models.py: the fully merged record for one
(size, strategy) trial. -/
structure EndpointMetrics where
  endpoint : String
  file_size_bytes : ℤ
  file_size_mb : ℚ
  handler_duration_seconds : ℚ
  total_duration_seconds : ℚ
  total_throughput_mbps : ℚ
  total_memory_delta_mb : ℚ
  memory_start_mb : ℚ
  memory_end_mb : ℚ
  memory_delta_mb : ℚ
  client_duration : ℚ
  deriving Repr, DecidableEq

/-- The `EndpointMetrics(...)` construction in `run_benchmark`
(src/client.py:173-185), including the guarded throughput
`file_size_mb / total_duration if total_duration > 0 else 0`. -/
def mkEndpointMetrics (endpoint_name : String) (sr : ServerResponse)
    (total_duration total_memory_delta client_duration : ℚ) : EndpointMetrics :=
  { endpoint := endpoint_name
    file_size_bytes := sr.file_size_bytes
    file_size_mb := sr.file_size_mb
    handler_duration_seconds := sr.handler_duration_seconds
    total_duration_seconds := total_duration
    total_throughput_mbps :=
      if total_duration > 0 then sr.file_size_mb / total_duration else 0
    total_memory_delta_mb := total_memory_delta
    memory_start_mb := sr.memory_start_mb
    memory_end_mb := sr.memory_end_mb
    memory_delta_mb := sr.memory_delta_mb
    client_duration := client_duration }

/-- The inner `for endpoint in ENDPOINTS` loop of `run_benchmark`
(src/client.py:158-197) for one file size, given each trial's outcome: a
success stores `endpoint_results[endpoint_name] = metrics`; the error dict and
any exception print a diagnostic and `continue`.  The dict is modelled as an
association list in insertion order. -/
def runSizeRow : List (String × UploadOutcome) → List (String × EndpointMetrics)
  | [] => []
  | (endpoint, outcome) :: rest =>
    match outcome with
    | .error _ _ => runSizeRow rest
    | .exn => runSizeRow rest
    | .ok sr client_duration total_duration total_memory_delta =>
      (endpoint.replace "/upload/" "",
        mkEndpointMetrics (endpoint.replace "/upload/" "") sr total_duration
          total_memory_delta client_duration) :: runSizeRow rest

/-! ### Data model and persistence: src/models.py, `save_results` -/

/-- `FileSizeTest` from src/models.py: one size's label, byte count, and the
`endpoint_name → EndpointMetrics` dict, modelled as an association list in
insertion order. -/
structure FileSizeTest where
  file_size_label : String
  file_size_bytes : ℤ
  results : List (String × EndpointMetrics)
  deriving Repr, DecidableEq

/-- `BenchmarkRun` from src/models.py.  The `datetime` timestamp is modelled
from the spec as its ISO-8601 text (§6: runs carry "an ISO-8601 timestamp"),
which is exactly what serialization stores. -/
structure BenchmarkRun where
  timestamp : String
  test_files : List FileSizeTest
  endpoints : List String
  summary : List (String × List (String × ℚ))
  deriving Repr, DecidableEq

/-- `BenchmarkHistory` from src/models.py. -/
structure BenchmarkHistory where
  runs : List BenchmarkRun
  deriving Repr, DecidableEq

/-- `BenchmarkHistory.add_run` (src/models.py:59-61): append at the end. -/
def BenchmarkHistory.add_run (h : BenchmarkHistory) (run : BenchmarkRun) :
    BenchmarkHistory :=
  ⟨h.runs ++ [run]⟩

/-- A JSON document.  Python serialization distinguishes ints from floats;
floats are modelled as rationals. -/
inductive Json where
  | null
  | bool (b : Bool)
  | int (n : ℤ)
  | num (q : ℚ)
  | str (s : String)
  | arr (xs : List Json)
  | obj (fields : List (String × Json))
  deriving Repr

/-- Expect a JSON string. -/
def Json.asStr : Json → Option String
  | .str s => some s
  | _ => none

/-- Expect a JSON integer. -/
def Json.asInt : Json → Option ℤ
  | .int n => some n
  | _ => none

/-- Expect a JSON number. -/
def Json.asNum : Json → Option ℚ
  | .num q => some q
  | _ => none

/-- Modelled from the spec: pydantic's `model_dump_json` on `EndpointMetrics`
— one JSON object with the model's fields by name (declaration order). -/
def encodeEndpointMetrics (m : EndpointMetrics) : Json :=
  .obj [("endpoint", .str m.endpoint),
        ("file_size_bytes", .int m.file_size_bytes),
        ("file_size_mb", .num m.file_size_mb),
        ("handler_duration_seconds", .num m.handler_duration_seconds),
        ("total_duration_seconds", .num m.total_duration_seconds),
        ("total_throughput_mbps", .num m.total_throughput_mbps),
        ("total_memory_delta_mb", .num m.total_memory_delta_mb),
        ("memory_start_mb", .num m.memory_start_mb),
        ("memory_end_mb", .num m.memory_end_mb),
        ("memory_delta_mb", .num m.memory_delta_mb),
        ("client_duration", .num m.client_duration)]

/-- Modelled from the spec: pydantic validation of an `EndpointMetrics` object
— look each declared field up by name and check its type. -/
def decodeEndpointMetrics : Json → Option EndpointMetrics
  | .obj fields => do
    let endpoint ← (fields.lookup "endpoint").bind Json.asStr
    let file_size_bytes ← (fields.lookup "file_size_bytes").bind Json.asInt
    let file_size_mb ← (fields.lookup "file_size_mb").bind Json.asNum
    let handler_duration_seconds ←
      (fields.lookup "handler_duration_seconds").bind Json.asNum
    let total_duration_seconds ←
      (fields.lookup "total_duration_seconds").bind Json.asNum
    let total_throughput_mbps ←
      (fields.lookup "total_throughput_mbps").bind Json.asNum
    let total_memory_delta_mb ←
      (fields.lookup "total_memory_delta_mb").bind Json.asNum
    let memory_start_mb ← (fields.lookup "memory_start_mb").bind Json.asNum
    let memory_end_mb ← (fields.lookup "memory_end_mb").bind Json.asNum
    let memory_delta_mb ← (fields.lookup "memory_delta_mb").bind Json.asNum
    let client_duration ← (fields.lookup "client_duration").bind Json.asNum
    pure ⟨endpoint, file_size_bytes, file_size_mb, handler_duration_seconds,
          total_duration_seconds, total_throughput_mbps, total_memory_delta_mb,
          memory_start_mb, memory_end_mb, memory_delta_mb, client_duration⟩
  | _ => none

/-- Decode every value of a JSON object's field list, keeping keys and order
(a `dict[str, …]` pydantic field). -/
def decodePairs (f : Json → Option α) : List (String × Json) → Option (List (String × α))
  | [] => some []
  | (k, v) :: rest => do
    let a ← f v
    let as_ ← decodePairs f rest
    pure ((k, a) :: as_)

/-- Decode every element of a JSON array (a `list[…]` pydantic field). -/
def decodeList (f : Json → Option α) : List Json → Option (List α)
  | [] => some []
  | x :: rest => do
    let a ← f x
    let as_ ← decodeList f rest
    pure (a :: as_)

/-- Modelled from the spec: serialization of the `results` dict of a
`FileSizeTest`. -/
def encodeMetricsMap (rs : List (String × EndpointMetrics)) : Json :=
  .obj (rs.map fun p => (p.1, encodeEndpointMetrics p.2))

/-- Modelled from the spec: validation of the `results` dict. -/
def decodeMetricsMap : Json → Option (List (String × EndpointMetrics))
  | .obj fields => decodePairs decodeEndpointMetrics fields
  | _ => none

/-- Modelled from the spec: serialization of a `FileSizeTest`. -/
def encodeFileSizeTest (t : FileSizeTest) : Json :=
  .obj [("file_size_label", .str t.file_size_label),
        ("file_size_bytes", .int t.file_size_bytes),
        ("results", encodeMetricsMap t.results)]

/-- Modelled from the spec: validation of a `FileSizeTest`. -/
def decodeFileSizeTest : Json → Option FileSizeTest
  | .obj fields => do
    let file_size_label ← (fields.lookup "file_size_label").bind Json.asStr
    let file_size_bytes ← (fields.lookup "file_size_bytes").bind Json.asInt
    let results ←
      match fields.lookup "results" with
      | some j => decodeMetricsMap j
      | none => none
    pure ⟨file_size_label, file_size_bytes, results⟩
  | _ => none

/-- Modelled from the spec: serialization of an inner `dict[str, float]` of
the `summary` field. -/
def encodeFloatMap (m : List (String × ℚ)) : Json :=
  .obj (m.map fun p => (p.1, .num p.2))

/-- Modelled from the spec: validation of an inner `dict[str, float]`. -/
def decodeFloatMap : Json → Option (List (String × ℚ))
  | .obj fields => decodePairs Json.asNum fields
  | _ => none

/-- Modelled from the spec: pydantic's `model_dump_json` on `BenchmarkRun`. -/
def encodeBenchmarkRun (r : BenchmarkRun) : Json :=
  .obj [("timestamp", .str r.timestamp),
        ("test_files", .arr (r.test_files.map encodeFileSizeTest)),
        ("endpoints", .arr (r.endpoints.map Json.str)),
        ("summary", .obj (r.summary.map fun p => (p.1, encodeFloatMap p.2)))]

/-- Modelled from the spec: pydantic validation of a `BenchmarkRun`. -/
def decodeBenchmarkRun : Json → Option BenchmarkRun
  | .obj fields => do
    let timestamp ← (fields.lookup "timestamp").bind Json.asStr
    let test_files ←
      match fields.lookup "test_files" with
      | some (.arr xs) => decodeList decodeFileSizeTest xs
      | _ => none
    let endpoints ←
      match fields.lookup "endpoints" with
      | some (.arr xs) => decodeList Json.asStr xs
      | _ => none
    let summary ←
      match fields.lookup "summary" with
      | some (.obj fs) => decodePairs decodeFloatMap fs
      | _ => none
    pure ⟨timestamp, test_files, endpoints, summary⟩
  | _ => none

/-- Modelled from the spec: pydantic's `model_dump_json` on
`BenchmarkHistory`. -/
def encodeBenchmarkHistory (h : BenchmarkHistory) : Json :=
  .obj [("runs", .arr (h.runs.map encodeBenchmarkRun))]

/-- Modelled from the spec: `BenchmarkHistory.model_validate_json`. -/
def decodeBenchmarkHistory : Json → Option BenchmarkHistory
  | .obj fields => do
    let runs ←
      match fields.lookup "runs" with
      | some (.arr xs) => decodeList decodeBenchmarkRun xs
      | _ => none
    pure ⟨runs⟩
  | _ => none

/-- `save_results` (src/client.py:105-118) at the level of serialized store
content: `store` is `none` when `RESULTS_FILE` does not exist, else the JSON
document it holds.  A store that fails validation propagates the pydantic
exception (`.error`); otherwise the run is appended and the entire history
rewritten. -/
def save_results (store : Option Json) (benchmark_run : BenchmarkRun) :
    Except Unit Json :=
  match store with
  | some doc =>
    match decodeBenchmarkHistory doc with
    | some history => .ok (encodeBenchmarkHistory (history.add_run benchmark_run))
    | none => .error ()
  | none => .ok (encodeBenchmarkHistory (BenchmarkHistory.add_run ⟨[]⟩ benchmark_run))

/-- N consecutive `save_results` executions threading the store file. -/
def saveSeq : Option Json → List BenchmarkRun → Except Unit (Option Json)
  | store, [] => .ok store
  | store, r :: rs =>
    match save_results store r with
    | .ok doc => saveSeq (some doc) rs
    | .error e => .error e

/-! ### Helper lemmas -/

/-- Unfolding lemma for `buildSizes` while the loop guard holds. -/
theorem buildSizes_cons (s : ℕ) (h : 0 < s) (hle : s ≤ 1024 * 1024 * 1024) :
    buildSizes s h = (fileSizeLabel s, s) :: buildSizes (s * 2) (by omega) := by
  rw [buildSizes]
  simp [hle]

/-- Unfolding lemma for `buildSizes` once the loop guard fails. -/
theorem buildSizes_nil (s : ℕ) (h : 0 < s) (hgt : ¬ s ≤ 1024 * 1024 * 1024) :
    buildSizes s h = [] := by
  rw [buildSizes]
  simp [hgt]

/-- A failing trial contributes nothing to the row's result dict. -/
theorem runSizeRow_skip (ep : String) (o : UploadOutcome)
    (h : ∀ sr cd td tmd, o ≠ .ok sr cd td tmd)
    (rest : List (String × UploadOutcome)) :
    runSizeRow ((ep, o) :: rest) = runSizeRow rest := by
  cases o with
  | error s cd => rfl
  | exn => rfl
  | ok sr cd td tmd => exact absurd rfl (h sr cd td tmd)

/-- A failing trial anywhere in a row leaves the rest of the row's result
dict exactly as it would have been without that trial. -/
theorem runSizeRow_append_skip (ep : String) (o : UploadOutcome)
    (hfail : ∀ sr cd td tmd, o ≠ .ok sr cd td tmd)
    (xs ys : List (String × UploadOutcome)) :
    runSizeRow (xs ++ (ep, o) :: ys) = runSizeRow (xs ++ ys) := by
  induction xs with
  | nil => simpa using runSizeRow_skip ep o hfail ys
  | cons p rest ih =>
    obtain ⟨ep', o'⟩ := p
    cases o' <;> simp [runSizeRow, ih]

/-- Decoding inverts encoding, lifted to keyed field lists. -/
theorem decodePairs_encode {α : Type} (f : α → Json) (g : Json → Option α)
    (hfg : ∀ a, g (f a) = some a) (l : List (String × α)) :
    decodePairs g (l.map fun p => (p.1, f p.2)) = some l := by
  induction l with
  | nil => rfl
  | cons p rest ih => simp [decodePairs, hfg, ih]

/-- Decoding inverts encoding, lifted to JSON arrays. -/
theorem decodeList_encode {α : Type} (f : α → Json) (g : Json → Option α)
    (hfg : ∀ a, g (f a) = some a) (l : List α) :
    decodeList g (l.map f) = some l := by
  induction l with
  | nil => rfl
  | cons a rest ih => simp [decodeList, hfg, ih]

/-- Round trip for one `EndpointMetrics`. -/
theorem decode_encode_metrics (m : EndpointMetrics) :
    decodeEndpointMetrics (encodeEndpointMetrics m) = some m := by
  cases m
  simp [decodeEndpointMetrics, encodeEndpointMetrics, List.lookup,
    Json.asStr, Json.asInt, Json.asNum]

/-- Round trip for one `FileSizeTest`. -/
theorem decode_encode_fst (t : FileSizeTest) :
    decodeFileSizeTest (encodeFileSizeTest t) = some t := by
  cases t
  simp [decodeFileSizeTest, encodeFileSizeTest, List.lookup, Json.asStr,
    Json.asInt, decodeMetricsMap, encodeMetricsMap,
    decodePairs_encode encodeEndpointMetrics decodeEndpointMetrics
      decode_encode_metrics]

/-- Round trip for one inner `dict[str, float]` of the summary. -/
theorem decode_encode_floatmap (m : List (String × ℚ)) :
    decodeFloatMap (encodeFloatMap m) = some m := by
  simp [decodeFloatMap, encodeFloatMap,
    decodePairs_encode Json.num Json.asNum (fun _ => rfl)]

/-- Round trip for one `BenchmarkRun`. -/
theorem decode_encode_run (r : BenchmarkRun) :
    decodeBenchmarkRun (encodeBenchmarkRun r) = some r := by
  cases r
  simp [decodeBenchmarkRun, encodeBenchmarkRun, List.lookup, Json.asStr,
    decodeList_encode encodeFileSizeTest decodeFileSizeTest decode_encode_fst,
    decodeList_encode Json.str Json.asStr (fun _ => rfl),
    decodePairs_encode encodeFloatMap decodeFloatMap decode_encode_floatmap]

/-- Round trip for the whole `BenchmarkHistory`. -/
theorem decode_encode_history (h : BenchmarkHistory) :
    decodeBenchmarkHistory (encodeBenchmarkHistory h) = some h := by
  cases h
  simp [decodeBenchmarkHistory, encodeBenchmarkHistory, List.lookup,
    decodeList_encode encodeBenchmarkRun decodeBenchmarkRun decode_encode_run]

/-- `saveSeq` starting from an encoded history appends the runs in order. -/
theorem saveSeq_encoded (h : BenchmarkHistory) (rs : List BenchmarkRun) :
    saveSeq (some (encodeBenchmarkHistory h)) rs =
      .ok (some (encodeBenchmarkHistory ⟨h.runs ++ rs⟩)) := by
  induction rs generalizing h with
  | nil => cases h; simp [saveSeq]
  | cons r rest ih =>
    rw [saveSeq]
    simp only [save_results, decode_encode_history]
    rw [ih (h.add_run r)]
    simp [BenchmarkHistory.add_run]

/-! ### Claims -/

/-- C1, counterexample.  The claim states that `memory_start_mb` reports
process resident memory at handler entry and `memory_delta_mb` the
handler-entry-to-handler-exit difference, "excluding whatever the framework
did before calling the handler".  On the trace where resident memory is 100
MiB at middleware entry and 200 MiB from handler entry onward (the framework
buffered the body in between), the `sync-file` route reports
`memory_start_mb = 100` (the middleware's pre-framework snapshot read from
the context variable), not 200, and `memory_delta_mb = 100`, not 0. -/
theorem memory_start_not_handler_entry :
    (route_sync_file ⟨0, 1, 2, 3, 100, 200, 200, 200⟩ []).1.memory_start_mb ≠
      (⟨0, 1, 2, 3, 100, 200, 200, 200⟩ : Trace).mHandlerEntry ∧
    (route_sync_file ⟨0, 1, 2, 3, 100, 200, 200, 200⟩ []).1.memory_delta_mb ≠
      (⟨0, 1, 2, 3, 100, 200, 200, 200⟩ : Trace).mHandlerExit -
        (⟨0, 1, 2, 3, 100, 200, 200, 200⟩ : Trace).mHandlerEntry := by
  constructor <;> norm_num [route_sync_file, dispatch, upload_sync_file]

/-- C1, amended: on every request to any of the five upload routes,
`memory_start_mb` reports the process resident memory sampled by the
interceptor at middleware entry — before any framework processing — shared
with the handler through the request-scoped context variable; `memory_end_mb`
reports resident memory at handler exit; and `memory_delta_mb` is their
difference, so the memory window (unlike the duration window) includes the
framework's pre-handler work. -/
theorem memory_fields_reported (tr : Trace) (body data : List ℕ)
    (chunks : List (List ℕ)) :
    ((route_sync_file tr body).1.memory_start_mb = tr.mMwStart ∧
      (route_sync_file tr body).1.memory_end_mb = tr.mHandlerExit ∧
      (route_sync_file tr body).1.memory_delta_mb = tr.mHandlerExit - tr.mMwStart) ∧
    ((route_async_file tr body).1.memory_start_mb = tr.mMwStart ∧
      (route_async_file tr body).1.memory_end_mb = tr.mHandlerExit ∧
      (route_async_file tr body).1.memory_delta_mb = tr.mHandlerExit - tr.mMwStart) ∧
    ((route_sync_uploadfile tr data).1.memory_start_mb = tr.mMwStart ∧
      (route_sync_uploadfile tr data).1.memory_end_mb = tr.mHandlerExit ∧
      (route_sync_uploadfile tr data).1.memory_delta_mb = tr.mHandlerExit - tr.mMwStart) ∧
    ((route_async_uploadfile tr data).1.memory_start_mb = tr.mMwStart ∧
      (route_async_uploadfile tr data).1.memory_end_mb = tr.mHandlerExit ∧
      (route_async_uploadfile tr data).1.memory_delta_mb = tr.mHandlerExit - tr.mMwStart) ∧
    ((route_async_stream tr chunks).1.memory_start_mb = tr.mMwStart ∧
      (route_async_stream tr chunks).1.memory_end_mb = tr.mHandlerExit ∧
      (route_async_stream tr chunks).1.memory_delta_mb = tr.mHandlerExit - tr.mMwStart) := by
  refine ⟨⟨rfl, rfl, rfl⟩, ⟨rfl, rfl, rfl⟩, ⟨rfl, rfl, rfl⟩, ⟨rfl, rfl, rfl⟩,
    ⟨rfl, rfl, rfl⟩⟩

/-- C2: on every route, `file_size_bytes` equals the total number of bytes of
the delivered body (the length of the pre-buffered body for the `File()`
routes, the byte count drained by the chunked read loop for the `UploadFile`
routes, the sum of the lengths of all chunks consumed for the stream route),
and `file_size_mb` equals `file_size_bytes / 1048576`; in particular a 1 MiB
upload to the raw-streaming route reports 1,048,576 bytes received. -/
theorem file_size_reported (tr : Trace) (body data : List ℕ)
    (chunks : List (List ℕ)) :
    ((route_sync_file tr body).1.file_size_bytes = (body.length : ℤ) ∧
      (route_sync_file tr body).1.file_size_mb =
        ((route_sync_file tr body).1.file_size_bytes : ℚ) / 1048576) ∧
    ((route_async_file tr body).1.file_size_bytes = (body.length : ℤ) ∧
      (route_async_file tr body).1.file_size_mb =
        ((route_async_file tr body).1.file_size_bytes : ℚ) / 1048576) ∧
    ((route_sync_uploadfile tr data).1.file_size_bytes = (data.length : ℤ) ∧
      (route_sync_uploadfile tr data).1.file_size_mb =
        ((route_sync_uploadfile tr data).1.file_size_bytes : ℚ) / 1048576) ∧
    ((route_async_uploadfile tr data).1.file_size_bytes = (data.length : ℤ) ∧
      (route_async_uploadfile tr data).1.file_size_mb =
        ((route_async_uploadfile tr data).1.file_size_bytes : ℚ) / 1048576) ∧
    ((route_async_stream tr chunks).1.file_size_bytes = (chunks.flatten.length : ℤ) ∧
      (route_async_stream tr chunks).1.file_size_mb =
        ((route_async_stream tr chunks).1.file_size_bytes : ℚ) / 1048576) ∧
    (route_async_stream tr [List.replicate 1048576 0]).1.file_size_bytes =
      1048576 := by
  have hdiv : ∀ q : ℚ, q / 1024 / 1024 = q / 1048576 := by
    intro q
    rw [div_div]
    norm_num
  refine ⟨⟨rfl, ?_⟩, ⟨rfl, ?_⟩, ⟨?_, ?_⟩, ⟨?_, ?_⟩, ⟨?_, ?_⟩, ?_⟩
  · exact hdiv _
  · exact hdiv _
  · simp [route_sync_uploadfile, dispatch, upload_sync_uploadfile,
      readLoopSize_eq_length]
  · simp only [route_sync_uploadfile, dispatch, upload_sync_uploadfile,
      readLoopSize_eq_length, Int.cast_natCast]
    exact hdiv _
  · simp [route_async_uploadfile, dispatch, upload_async_uploadfile,
      readLoopSize_eq_length]
  · simp only [route_async_uploadfile, dispatch, upload_async_uploadfile,
      readLoopSize_eq_length, Int.cast_natCast]
    exact hdiv _
  · simp [route_async_stream, dispatch, upload_async_stream, List.length_flatten]
  · simp only [route_async_stream, dispatch, upload_async_stream,
      Int.cast_natCast]
    exact hdiv _
  · show ((([List.replicate 1048576 (0 : ℕ)].map List.length).sum : ℕ) : ℤ) =
      1048576
    have h1 : ([List.replicate 1048576 (0 : ℕ)].map List.length).sum =
        1048576 := by
      rw [List.map_cons, List.map_nil, List.length_replicate, List.sum_cons,
        List.sum_nil, Nat.add_zero]
    rw [h1]
    rfl

/-- C3: on every route, under the hypothesis that the monotonic clock is
non-decreasing across the four `perf_counter` calls (middleware start, handler
start, handler end, middleware end, in program order), the handler-local
duration in the response body is at most the total duration stamped in the
`X-Total-Duration` header: the interceptor's window contains the handler's. -/
theorem handler_duration_le_total (tr : Trace)
    (h01 : tr.tMwStart ≤ tr.tHandlerStart)
    (_h12 : tr.tHandlerStart ≤ tr.tHandlerEnd)
    (h23 : tr.tHandlerEnd ≤ tr.tMwEnd)
    (body data : List ℕ) (chunks : List (List ℕ)) :
    (route_sync_file tr body).1.handler_duration_seconds ≤
      (route_sync_file tr body).2.xTotalDuration ∧
    (route_async_file tr body).1.handler_duration_seconds ≤
      (route_async_file tr body).2.xTotalDuration ∧
    (route_sync_uploadfile tr data).1.handler_duration_seconds ≤
      (route_sync_uploadfile tr data).2.xTotalDuration ∧
    (route_async_uploadfile tr data).1.handler_duration_seconds ≤
      (route_async_uploadfile tr data).2.xTotalDuration ∧
    (route_async_stream tr chunks).1.handler_duration_seconds ≤
      (route_async_stream tr chunks).2.xTotalDuration := by
  have key : tr.tHandlerEnd - tr.tHandlerStart ≤ tr.tMwEnd - tr.tMwStart :=
    sub_le_sub h23 h01
  exact ⟨key, key, key, key, key⟩

/-- C3 witness: a concrete monotone trace. -/
theorem handler_duration_le_total_witness :
    (route_sync_file ⟨0, 1, 3, 4, 50, 60, 70, 80⟩ []).1.handler_duration_seconds ≤
      (route_sync_file ⟨0, 1, 3, 4, 50, 60, 70, 80⟩ []).2.xTotalDuration ∧
    (route_async_file ⟨0, 1, 3, 4, 50, 60, 70, 80⟩ []).1.handler_duration_seconds ≤
      (route_async_file ⟨0, 1, 3, 4, 50, 60, 70, 80⟩ []).2.xTotalDuration ∧
    (route_sync_uploadfile ⟨0, 1, 3, 4, 50, 60, 70, 80⟩ []).1.handler_duration_seconds ≤
      (route_sync_uploadfile ⟨0, 1, 3, 4, 50, 60, 70, 80⟩ []).2.xTotalDuration ∧
    (route_async_uploadfile ⟨0, 1, 3, 4, 50, 60, 70, 80⟩ []).1.handler_duration_seconds ≤
      (route_async_uploadfile ⟨0, 1, 3, 4, 50, 60, 70, 80⟩ []).2.xTotalDuration ∧
    (route_async_stream ⟨0, 1, 3, 4, 50, 60, 70, 80⟩ []).1.handler_duration_seconds ≤
      (route_async_stream ⟨0, 1, 3, 4, 50, 60, 70, 80⟩ []).2.xTotalDuration :=
  handler_duration_le_total ⟨0, 1, 3, 4, 50, 60, 70, 80⟩ (by norm_num)
    (by norm_num) (by norm_num) [] [] []

/-- C4: the recorded `total_throughput_mbps` equals `file_size_mb` divided by
`total_duration_seconds` whenever the total duration is positive, and equals 0
when it is zero; the construction is total, so the zero-duration case never
raises a division error. -/
theorem throughput_guarded (name : String) (sr : ServerResponse)
    (td tmd cd : ℚ) :
    (0 < td →
      (mkEndpointMetrics name sr td tmd cd).total_throughput_mbps =
        sr.file_size_mb / td) ∧
    (td = 0 →
      (mkEndpointMetrics name sr td tmd cd).total_throughput_mbps = 0) := by
  constructor
  · intro h
    simp [mkEndpointMetrics, h]
  · intro h
    simp [mkEndpointMetrics, h]

/-- A sample `ServerResponse`, used to instantiate witnesses. -/
def sampleSR : ServerResponse :=
  { endpoint := "async-stream"
    file_size_bytes := 1048576
    file_size_mb := 1
    handler_duration_seconds := 1/2
    memory_start_mb := 100
    memory_end_mb := 101
    memory_delta_mb := 1 }

/-- C4 witness: both guard branches at concrete durations. -/
theorem throughput_guarded_witness :
    (mkEndpointMetrics "async-stream" sampleSR 2 0 1).total_throughput_mbps =
      sampleSR.file_size_mb / 2 ∧
    (mkEndpointMetrics "async-stream" sampleSR 0 0 1).total_throughput_mbps = 0 :=
  ⟨(throughput_guarded "async-stream" sampleSR 2 0 1).1 (by norm_num),
   (throughput_guarded "async-stream" sampleSR 0 0 1).2 rfl⟩

/-- C5: a trial that fails — non-success HTTP status (the error dict),
transport failure or timeout (an exception) — contributes no entry for that
(strategy, size) pair: the row's result mapping is exactly what it would be
without that trial (so the other strategies' entries are unaffected and the
remaining trials still run), and if the strategy's key is not contributed by
another trial it is absent from the mapping, never zero-filled.  (The printed
diagnostic is I/O and is not modelled.) -/
theorem failed_trial_absent (xs ys : List (String × UploadOutcome))
    (ep : String) (o : UploadOutcome)
    (hfail : ∀ sr cd td tmd, o ≠ .ok sr cd td tmd)
    (habs : ep.replace "/upload/" "" ∉ (runSizeRow (xs ++ ys)).map Prod.fst) :
    runSizeRow (xs ++ (ep, o) :: ys) = runSizeRow (xs ++ ys) ∧
    ep.replace "/upload/" "" ∉
      (runSizeRow (xs ++ (ep, o) :: ys)).map Prod.fst := by
  have heq := runSizeRow_append_skip ep o hfail xs ys
  exact ⟨heq, by rw [heq]; exact habs⟩

/-- C5 witness: a failed trial in a row by itself. -/
theorem failed_trial_absent_witness :
    runSizeRow ([] ++ ("/upload/async-stream", .error 500 1) :: []) =
      runSizeRow ([] ++ []) ∧
    "/upload/async-stream".replace "/upload/" "" ∉
      (runSizeRow ([] ++ ("/upload/async-stream", .error 500 1) :: [])).map
        Prod.fst :=
  failed_trial_absent [] [] "/upload/async-stream" (.error 500 1)
    (fun _ _ _ _ => nofun) (by simp [runSizeRow])

/-- C6: saving a completed run loads the store when it exists and starts from
an empty history when it does not (not an error), appends the new run at the
end, and rewrites the entire history; hence N successful saves against a
fresh store persist exactly those N runs in execution order, and re-loading
then re-saving without appending reproduces the same history (same record
count, all prior runs unchanged). -/
theorem save_results_history (r0 : BenchmarkRun) (rs : List BenchmarkRun)
    (h : BenchmarkHistory) :
    save_results none r0 = .ok (encodeBenchmarkHistory ⟨[r0]⟩) ∧
    save_results (some (encodeBenchmarkHistory h)) r0 =
      .ok (encodeBenchmarkHistory ⟨h.runs ++ [r0]⟩) ∧
    saveSeq none (r0 :: rs) = .ok (some (encodeBenchmarkHistory ⟨r0 :: rs⟩)) ∧
    decodeBenchmarkHistory (encodeBenchmarkHistory h) = some h := by
  refine ⟨rfl, ?_, ?_, decode_encode_history h⟩
  · simp [save_results, decode_encode_history, BenchmarkHistory.add_run]
  · have h1 : saveSeq none (r0 :: rs) =
        saveSeq (some (encodeBenchmarkHistory ⟨[r0]⟩)) rs := rfl
    rw [h1, saveSeq_encoded ⟨[r0]⟩ rs]
    rfl

/-- C7: the file-size test matrix is exactly the 21 pairs (label, 1024·2^k)
for k = 0..20, sizes doubling from 1,024 up to and including 1,073,741,824
bytes, each label being the size integer-divided by the largest power-of-1024
unit not exceeding it followed by the unit suffix. -/
theorem file_sizes_matrix :
    FILE_SIZES =
      [("1KB", 1024), ("2KB", 2048), ("4KB", 4096), ("8KB", 8192),
       ("16KB", 16384), ("32KB", 32768), ("64KB", 65536), ("128KB", 131072),
       ("256KB", 262144), ("512KB", 524288), ("1MB", 1048576),
       ("2MB", 2097152), ("4MB", 4194304), ("8MB", 8388608),
       ("16MB", 16777216), ("32MB", 33554432), ("64MB", 67108864),
       ("128MB", 134217728), ("256MB", 268435456), ("512MB", 536870912),
       ("1GB", 1073741824)] ∧
    FILE_SIZES.map Prod.snd = (List.range 21).map fun k => 1024 * 2 ^ k := by
  have hlist : FILE_SIZES =
      [("1KB", 1024), ("2KB", 2048), ("4KB", 4096), ("8KB", 8192),
       ("16KB", 16384), ("32KB", 32768), ("64KB", 65536), ("128KB", 131072),
       ("256KB", 262144), ("512KB", 524288), ("1MB", 1048576),
       ("2MB", 2097152), ("4MB", 4194304), ("8MB", 8388608),
       ("16MB", 16777216), ("32MB", 33554432), ("64MB", 67108864),
       ("128MB", 134217728), ("256MB", 268435456), ("512MB", 536870912),
       ("1GB", 1073741824)] := by
    rw [FILE_SIZES]
    rw [buildSizes_cons _ _ (by norm_num)]
    rw [buildSizes_cons _ _ (by norm_num)]
    rw [buildSizes_cons _ _ (by norm_num)]
    rw [buildSizes_cons _ _ (by norm_num)]
    rw [buildSizes_cons _ _ (by norm_num)]
    rw [buildSizes_cons _ _ (by norm_num)]
    rw [buildSizes_cons _ _ (by norm_num)]
    rw [buildSizes_cons _ _ (by norm_num)]
    rw [buildSizes_cons _ _ (by norm_num)]
    rw [buildSizes_cons _ _ (by norm_num)]
    rw [buildSizes_cons _ _ (by norm_num)]
    rw [buildSizes_cons _ _ (by norm_num)]
    rw [buildSizes_cons _ _ (by norm_num)]
    rw [buildSizes_cons _ _ (by norm_num)]
    rw [buildSizes_cons _ _ (by norm_num)]
    rw [buildSizes_cons _ _ (by norm_num)]
    rw [buildSizes_cons _ _ (by norm_num)]
    rw [buildSizes_cons _ _ (by norm_num)]
    rw [buildSizes_cons _ _ (by norm_num)]
    rw [buildSizes_cons _ _ (by norm_num)]
    rw [buildSizes_cons _ _ (by norm_num)]
    rw [buildSizes_nil _ _ (by norm_num)]
    norm_num [fileSizeLabel]
    refine ⟨rfl, rfl, rfl, rfl, rfl, rfl, rfl, rfl, rfl, rfl, rfl, rfl, rfl,
      rfl, rfl, rfl, rfl, rfl, rfl, rfl, rfl⟩
  refine ⟨hlist, ?_⟩
  rw [hlist]
  rfl

/-- C8: serializing a `BenchmarkRun` and deserializing the result yields a
structure equal to the original — timestamp, the ordered `test_files` list,
each per-size strategy-to-metrics mapping with exactly its original keys
(absent strategies stay absent), the endpoints list and the summary mapping
are all preserved. -/
theorem benchmark_run_roundtrip (run : BenchmarkRun) :
    decodeBenchmarkRun (encodeBenchmarkRun run) = some run :=
  decode_encode_run run

/-- C9, counterexample.  The claim states that on a status-200 trial whose
response carries a malformed value in a metadata header the client defaults
the value to zero and still returns a fully merged result.  On a 200 response
whose `X-Total-Duration` header holds the unparsable text `"oops"`, the
`float()` call raises instead: `upload_file` produces an escaped exception,
not the merged result with a zero duration. -/
theorem malformed_header_not_defaulted :
    upload_file ⟨200, some sampleSR, [("X-Total-Duration", "oops")]⟩ 1 =
      .exn ∧
    upload_file ⟨200, some sampleSR, [("X-Total-Duration", "oops")]⟩ 1 ≠
      .ok sampleSR 1 0 0 := by
  constructor
  · decide
  · decide

/-- C9, amended: on a status-200 trial a *missing* `X-Total-Duration` or
`X-Total-Memory-Delta` header defaults the corresponding value to zero and
still yields the fully merged result (degraded measurement, not an error); a
*malformed* value in a present header instead raises inside the trial, which
the orchestrator's per-trial handler catches, skipping that cell and
continuing — so the run is still not aborted. -/
theorem missing_header_defaults_zero (sr : ServerResponse) (cd : ℚ)
    (h1 h2 : List (String × String)) (v : String)
    (hd : h1.lookup "X-Total-Duration" = none)
    (hm : h1.lookup "X-Total-Memory-Delta" = none)
    (hv : h2.lookup "X-Total-Duration" = some v)
    (hbad : pyFloat v = none)
    (ep : String) (rest : List (String × UploadOutcome)) :
    upload_file ⟨200, some sr, h1⟩ cd = .ok sr cd 0 0 ∧
    upload_file ⟨200, some sr, h2⟩ cd = .exn ∧
    runSizeRow ((ep, upload_file ⟨200, some sr, h2⟩ cd) :: rest) =
      runSizeRow rest := by
  have hexn : upload_file ⟨200, some sr, h2⟩ cd = .exn := by
    simp [upload_file, headerFloat, hv, hbad]
  refine ⟨?_, hexn, ?_⟩
  · simp [upload_file, headerFloat, hd, hm]
  · rw [hexn]
    rfl

/-- C9 witness: no headers at all versus a malformed duration header. -/
theorem missing_header_defaults_zero_witness :
    upload_file ⟨200, some sampleSR, []⟩ 1 = .ok sampleSR 1 0 0 ∧
    upload_file ⟨200, some sampleSR, [("X-Total-Duration", "oops")]⟩ 1 =
      .exn ∧
    runSizeRow (("/upload/async-stream",
        upload_file ⟨200, some sampleSR, [("X-Total-Duration", "oops")]⟩ 1) ::
      []) = runSizeRow [] :=
  missing_header_defaults_zero sampleSR 1 [] [("X-Total-Duration", "oops")]
    "oops" rfl rfl (by decide) (by decide) "/upload/async-stream" []

/-- C10: the encoding choice of the client.  An endpoint whose path contains
the substring "stream" gets the whole file materialized by `f.read()` into a
single in-memory bytes object sent as the raw request body (nothing is
streamed from the open handle during the request); every other endpoint gets
a single-field multipart form named "file" holding `filepath.name` and the
still-open handle.  Instantiated at the five declared endpoints. -/
theorem upload_encoding_choice (f : FileHandle) :
    (∀ ep, strIn "stream" ep = true → buildRequestBody ep f = .raw f.content) ∧
    (∀ ep, strIn "stream" ep = false → buildRequestBody ep f =
      .multipart "file" f.filename "application/octet-stream" f) ∧
    buildRequestBody "/upload/async-stream" f = .raw f.content ∧
    buildRequestBody "/upload/sync-file" f =
      .multipart "file" f.filename "application/octet-stream" f ∧
    buildRequestBody "/upload/async-file" f =
      .multipart "file" f.filename "application/octet-stream" f ∧
    buildRequestBody "/upload/sync-uploadfile" f =
      .multipart "file" f.filename "application/octet-stream" f ∧
    buildRequestBody "/upload/async-uploadfile" f =
      .multipart "file" f.filename "application/octet-stream" f := by
  have hravv : ∀ ep, strIn "stream" ep = true →
      buildRequestBody ep f = .raw f.content := by
    intro ep h
    simp [buildRequestBody, h]
  have hmp : ∀ ep, strIn "stream" ep = false → buildRequestBody ep f =
      .multipart "file" f.filename "application/octet-stream" f := by
    intro ep h
    simp [buildRequestBody, h]
  exact ⟨hravv, hmp, hravv _ (by decide), hmp _ (by decide), hmp _ (by decide),
    hmp _ (by decide), hmp _ (by decide)⟩

/-- C10 witness: the stream endpoint at a concrete handle, with the
substring-test premise discharged. -/
theorem upload_encoding_choice_witness :
    buildRequestBody "/upload/async-stream" ⟨"test_1KB.bin", [7, 7]⟩ =
      .raw [7, 7] ∧
    buildRequestBody "/upload/sync-file" ⟨"test_1KB.bin", [7, 7]⟩ =
      .multipart "file" "test_1KB.bin" "application/octet-stream"
        ⟨"test_1KB.bin", [7, 7]⟩ :=
  ⟨(upload_encoding_choice ⟨"test_1KB.bin", [7, 7]⟩).1 "/upload/async-stream"
      (by decide),
   (upload_encoding_choice ⟨"test_1KB.bin", [7, 7]⟩).2.1 "/upload/sync-file"
      (by decide)⟩

end Upload
